import Mathlib

/-!
Verification of the asynchronous resource-fetch behaviour of this
repository (the AsyncResource design), as a shallow embedding of the
relevant TypeScript source.

Embedded code:
* the generic hook named useAxiosFetch (three useState cells: data,
  isLoading, error; one async callback fetchData with try/catch/finally);
* the function named loadWithFetch in ReactBackendExample (explicit
  response.ok check, JSON decoding, error-message formatting);
* the theme context accessor named useTheme together with the provider
  value it guards.

Machine state lives in React useState cells; each setX call is modelled
as a functional update of a record.  An async attempt splits into the
synchronous part that runs before the await (setIsLoading(true);
setError(null)) and the completion part that runs when the awaited
promise settles (the try continuation or the catch block, followed by
the finally block).  Interleavings of several in-flight attempts are
lists of such events.
-/

namespace ReactBackend

/-- Lifecycle phase of an asynchronous resource, as the presentation
layer derives it from the three state cells (the render guards in the
source test isLoading first, then the error cell, then the data cell). -/
inductive Status where
  | Idle
  | Loading
  | Succeeded
  | Failed
deriving DecidableEq

/-- State of one useAxiosFetch instance: the three useState cells
data (T | null), isLoading (boolean) and error (string | null). -/
structure AxiosHookState (T : Type) where
  data : Option T
  isLoading : Bool
  error : Option String
deriving DecidableEq

/-- Initial cell values of useAxiosFetch: useState(null), useState(false),
useState(null). -/
def initialHookState {T : Type} : AxiosHookState T :=
  ⟨none, false, none⟩

/-- Phase derived from the cells: Loading while isLoading is set,
otherwise Failed when the error cell is populated, otherwise Succeeded
when the data cell is populated, otherwise Idle. -/
def AxiosHookState.status {T : Type} (s : AxiosHookState T) : Status :=
  if s.isLoading then Status.Loading
  else
    match s.error with
    | some _ => Status.Failed
    | none =>
      match s.data with
      | some _ => Status.Succeeded
      | none => Status.Idle

/-- Synchronous part of fetchData, run when the callback is invoked and
before the await: setIsLoading(true); setError(null). -/
def fetchDataStart {T : Type} (s : AxiosHookState T) : AxiosHookState T :=
  { s with isLoading := true, error := none }

/-- Continuation of the try block once axios.get resolves:
setData(response.data). -/
def fetchDataOnSuccess {T : Type} (s : AxiosHookState T) (payload : T) :
    AxiosHookState T :=
  { s with data := some payload }

/-- Catch block of fetchData: setError(message); setData(null). -/
def fetchDataOnError {T : Type} (s : AxiosHookState T) (message : String) :
    AxiosHookState T :=
  { s with error := some message, data := none }

/-- Finally block of fetchData: setIsLoading(false). -/
def fetchDataFinally {T : Type} (s : AxiosHookState T) : AxiosHookState T :=
  { s with isLoading := false }

/-- Full completion of one attempt: the try continuation or the catch
block depending on how the promise settled, then the finally block. -/
def fetchDataComplete {T : Type} (s : AxiosHookState T)
    (outcome : Except String T) : AxiosHookState T :=
  fetchDataFinally
    (match outcome with
     | Except.ok payload => fetchDataOnSuccess s payload
     | Except.error message => fetchDataOnError s message)

/-- Events observable on one hook instance.  A start event is one
invocation of fetchData (the initial effect or a refetch click); the
nth start event creates attempt n (counting from 0).  A complete event
delivers the settled outcome of the named attempt.  The source's
completion handler does not inspect which attempt settled: there is no
generation counter in useAxiosFetch. -/
inductive HookEvent (T : Type) where
  | start
  | complete (attempt : Nat) (outcome : Except String T)

/-- One event applied to the state.  The attempt tag on a completion is
ignored, exactly as in the source: every settled promise runs its
continuation against the current cells. -/
def hookStep {T : Type} (s : AxiosHookState T) : HookEvent T → AxiosHookState T
  | HookEvent.start => fetchDataStart s
  | HookEvent.complete _ outcome => fetchDataComplete s outcome

/-- Run a list of events from a given state. -/
def hookRunFrom {T : Type} (s : AxiosHookState T) (es : List (HookEvent T)) :
    AxiosHookState T :=
  es.foldl hookStep s

/-- Run a list of events from the initial cell values. -/
def hookRun {T : Type} (es : List (HookEvent T)) : AxiosHookState T :=
  hookRunFrom initialHookState es

/-- Helper for wellFormed: started counts the start events seen so far,
done lists the attempts already completed. -/
def wfAux {T : Type} : Nat → List Nat → List (HookEvent T) → Bool
  | _, _, [] => true
  | started, done, HookEvent.start :: rest => wfAux (started + 1) done rest
  | started, done, HookEvent.complete i _ :: rest =>
      decide (i < started) && !(done.contains i) && wfAux started (i :: done) rest

/-- A trace is well formed when every completion names an attempt that
has already started and no attempt completes twice. -/
def wellFormed {T : Type} (es : List (HookEvent T)) : Bool :=
  wfAux 0 [] es

/-- Response delivered to loadWithFetch when the transport reaches the
server: the HTTP status code and the result of decoding the body
(response.json() either yields a value or throws a message). -/
structure FetchResponse (T : Type) where
  status : Nat
  body : Except String T

/-- Outcome of the awaited fetch call: either the promise rejects
before any response exists (network failure, carrying the thrown
message) or a response arrives. -/
inductive TransportResult (T : Type) where
  | netError (message : String)
  | response (r : FetchResponse T)

/-- Response.ok of the Fetch standard: true exactly for 2xx status
codes.  loadWithFetch reads this field off the response. -/
def respOk (status : Nat) : Bool :=
  decide (200 ≤ status) && decide (status ≤ 299)

/-- State cells of the fetch variant in ReactBackendExample: apodFetch
(T | null), isLoadingFetch (boolean), errorFetch (string | null). -/
structure LoadFetchState (T : Type) where
  apodFetch : Option T
  isLoadingFetch : Bool
  errorFetch : Option String
deriving DecidableEq

/-- Initial cell values of the fetch variant. -/
def initialLoadState {T : Type} : LoadFetchState T :=
  ⟨none, false, none⟩

/-- Phase derived from the cells of the fetch variant, with the same
render-guard order as the hook. -/
def LoadFetchState.status {T : Type} (s : LoadFetchState T) : Status :=
  if s.isLoadingFetch then Status.Loading
  else
    match s.errorFetch with
    | some _ => Status.Failed
    | none =>
      match s.apodFetch with
      | some _ => Status.Succeeded
      | none => Status.Idle

/-- Whole run of loadWithFetch for one settled transport result.  The
function sets isLoadingFetch and clears errorFetch, then: a rejected
fetch lands in the catch block with the rejection message; a response
with ok = false throws the message built from the status code before
the body is ever decoded, landing in the catch block; an ok response
has its body decoded, a decode throw lands in the catch block, a
decoded value is stored.  The catch block formats the message and
clears apodFetch; the finally block clears isLoadingFetch. -/
def loadWithFetch {T : Type} (s : LoadFetchState T)
    (tr : TransportResult T) : LoadFetchState T :=
  let s0 : LoadFetchState T := { s with isLoadingFetch := true, errorFetch := none }
  let s1 : LoadFetchState T :=
    match tr with
    | TransportResult.netError message =>
        { s0 with
          errorFetch := some ("Fehler beim Laden (fetch): " ++ message)
          apodFetch := none }
    | TransportResult.response r =>
        if respOk r.status then
          match r.body with
          | Except.ok value => { s0 with apodFetch := some value }
          | Except.error message =>
              { s0 with
                errorFetch := some ("Fehler beim Laden (fetch): " ++ message)
                apodFetch := none }
        else
          { s0 with
            errorFetch :=
              some ("Fehler beim Laden (fetch): " ++
                ("HTTP-Fehler: " ++ toString r.status))
            apodFetch := none }
  { s1 with isLoadingFetch := false }

/-- A hook instance together with its mount flag.  The cells belong to
a mounted component; React discards a state update that is delivered
after the owning component has unmounted, so an unmounted instance
ignores every event. -/
structure MountedHook (T : Type) where
  mounted : Bool
  cells : AxiosHookState T
deriving DecidableEq

/-- Unmounting the component that owns the hook.  The source's effect
installs no cleanup; disposal is the framework unmount itself. -/
def dispose {T : Type} (h : MountedHook T) : MountedHook T :=
  { h with mounted := false }

/-- Event delivery to a possibly unmounted instance: the framework
applies the update only while the component is mounted. -/
def mountedStep {T : Type} (h : MountedHook T) (e : HookEvent T) :
    MountedHook T :=
  if h.mounted then { h with cells := hookStep h.cells e } else h

end ReactBackend

namespace ContextRedux

/-- Allowed theme values, the union type of the source. -/
inductive Theme where
  | light
  | dark
deriving DecidableEq

/-- Value shared through the theme context: the current theme.  The
toggle callback of the source is modelled by the transition function
toggleTheme below. -/
structure ThemeContextValue where
  theme : Theme
deriving DecidableEq

/-- Theme switch defined in ThemeProvider: light becomes dark and dark
becomes light. -/
def toggleTheme (prev : Theme) : Theme :=
  match prev with
  | Theme.light => Theme.dark
  | Theme.dark => Theme.light

/-- Theme state a ThemeProvider starts with. -/
def providerInitialTheme : Theme := Theme.light

/-- Value a ThemeProvider publishes into the context for its subtree. -/
def providerValue (t : Theme) : Option ThemeContextValue :=
  some ⟨t⟩

/-- Accessor useTheme: reads the context, which is undefined (none)
outside every provider because the context was created with undefined
as its default; on undefined it throws the configuration error, and
otherwise returns the context value. -/
def useTheme (ctx : Option ThemeContextValue) :
    Except String ThemeContextValue :=
  match ctx with
  | none =>
      Except.error "useTheme muss innerhalb von ThemeProvider verwendet werden."
  | some v => Except.ok v

end ContextRedux

namespace ReactBackend

/-- Exactly one of the three phase clauses of the state invariant
holds: settled success with a value, settled failure with an error, or
an Idle or Loading phase. -/
def ExactlyOne {T : Type} (s : AxiosHookState T) : Prop :=
  ((s.data.isSome = true ∧ s.status = Status.Succeeded) ∧
    ¬(s.error.isSome = true ∧ s.status = Status.Failed) ∧
    ¬(s.status = Status.Idle ∨ s.status = Status.Loading)) ∨
  (¬(s.data.isSome = true ∧ s.status = Status.Succeeded) ∧
    (s.error.isSome = true ∧ s.status = Status.Failed) ∧
    ¬(s.status = Status.Idle ∨ s.status = Status.Loading)) ∨
  (¬(s.data.isSome = true ∧ s.status = Status.Succeeded) ∧
    ¬(s.error.isSome = true ∧ s.status = Status.Failed) ∧
    (s.status = Status.Idle ∨ s.status = Status.Loading))

/-- Claim C1 (evaluation of the code at the failing trace): two
attempts start before either completes; the later-initiated attempt 1
settles first with payload 2, then the stale attempt 0 settles with
payload 1.  The trace is well formed, yet the final visible state holds
attempt 0's payload with status Succeeded, because useAxiosFetch has no
generation guard and applies every completion unconditionally — the
outcome of an attempt older than the most recent initiation is applied,
contradicting the claim. -/
theorem c1_stale_completion_applied :
    wellFormed
        [(HookEvent.start : HookEvent Nat), HookEvent.start,
          HookEvent.complete 1 (Except.ok 2), HookEvent.complete 0 (Except.ok 1)] =
      true ∧
    hookRun
        [(HookEvent.start : HookEvent Nat), HookEvent.start,
          HookEvent.complete 1 (Except.ok 2), HookEvent.complete 0 (Except.ok 1)] =
      ⟨some 1, false, none⟩ ∧
    ¬(hookRun
        [(HookEvent.start : HookEvent Nat), HookEvent.start,
          HookEvent.complete 1 (Except.ok 2), HookEvent.complete 0 (Except.ok 1)]).data =
      some 2 ∧
    (hookRun
        [(HookEvent.start : HookEvent Nat), HookEvent.start,
          HookEvent.complete 1 (Except.ok 2), HookEvent.complete 0 (Except.ok 1)]).status =
      Status.Succeeded :=
  ⟨by decide, by decide, by decide, by decide⟩

/-- Claim C2 counterexample: from a Succeeded state holding value 5, a
retrigger whose attempt fails leaves data = none, not the previous
value 5 — the catch block of fetchData runs setData(null), so the
previously retrieved value is cleared, contradicting the retention
claim. -/
theorem c2_failure_clears_value :
    (⟨some 5, false, none⟩ : AxiosHookState Nat).status = Status.Succeeded ∧
    fetchDataComplete (fetchDataStart (⟨some 5, false, none⟩ : AxiosHookState Nat))
        (Except.error "Request failed") =
      ⟨none, false, some "Request failed"⟩ ∧
    ¬(fetchDataComplete (fetchDataStart (⟨some 5, false, none⟩ : AxiosHookState Nat))
        (Except.error "Request failed")).data = some 5 :=
  ⟨by decide, by decide, by decide⟩

/-- Claim C2 (amended): for every instance whose status is Succeeded, a
retrigger whose fetch attempt then fails populates the error cell and
moves the status to Failed, and clears the previously retrieved value
(data becomes absent rather than being retained). -/
theorem c2_amended_failure_clears_and_fails {T : Type} (s : AxiosHookState T)
    (m : String) (_h : s.status = Status.Succeeded) :
    (fetchDataComplete (fetchDataStart s) (Except.error m)).data = none ∧
    (fetchDataComplete (fetchDataStart s) (Except.error m)).error = some m ∧
    (fetchDataComplete (fetchDataStart s) (Except.error m)).status = Status.Failed :=
  ⟨rfl, rfl, rfl⟩

/-- Witness for the amended claim C2 at the concrete Succeeded state
holding value 7 and the concrete failure message. -/
theorem c2_amended_witness :
    (⟨some 7, false, none⟩ : AxiosHookState Nat).status = Status.Succeeded ∧
    ((fetchDataComplete (fetchDataStart (⟨some 7, false, none⟩ : AxiosHookState Nat))
        (Except.error "kaputt")).data = none ∧
      (fetchDataComplete (fetchDataStart (⟨some 7, false, none⟩ : AxiosHookState Nat))
        (Except.error "kaputt")).error = some "kaputt" ∧
      (fetchDataComplete (fetchDataStart (⟨some 7, false, none⟩ : AxiosHookState Nat))
        (Except.error "kaputt")).status = Status.Failed) :=
  ⟨by decide,
    c2_amended_failure_clears_and_fails ⟨some 7, false, none⟩ "kaputt" (by decide)⟩

/-- Claim C3: a response whose status code is not 2xx is always a
failure: loadWithFetch throws on response.ok = false before the body is
ever decoded, so whatever the body holds the attempt lands in the catch
block, the value cell is cleared, the error cell carries the HTTP
status error with the code, and the derived status is Failed. -/
theorem c3_non2xx_is_failure {T : Type} (s : LoadFetchState T) (code : Nat)
    (body : Except String T) (h : respOk code = false) :
    loadWithFetch s (TransportResult.response ⟨code, body⟩) =
      ⟨none, false,
        some ("Fehler beim Laden (fetch): " ++ ("HTTP-Fehler: " ++ toString code))⟩ ∧
    (loadWithFetch s (TransportResult.response ⟨code, body⟩)).status = Status.Failed := by
  constructor
  · simp [loadWithFetch, h]
  · simp [loadWithFetch, h, LoadFetchState.status]

/-- Witness for claim C3: the concrete 404 scenario with a present and
parseable body, evaluated from the initial state. -/
theorem c3_witness :
    respOk 404 = false ∧
    (loadWithFetch initialLoadState (TransportResult.response ⟨404, Except.ok (7 : Nat)⟩) =
      ⟨none, false,
        some ("Fehler beim Laden (fetch): " ++ ("HTTP-Fehler: " ++ toString (404 : Nat)))⟩ ∧
      (loadWithFetch initialLoadState
        (TransportResult.response ⟨404, Except.ok (7 : Nat)⟩)).status = Status.Failed) :=
  ⟨by decide, c3_non2xx_is_failure initialLoadState 404 (Except.ok 7) (by decide)⟩

/-- Claim C4: at every state of the hook exactly one of the three phase
clauses holds, and the outcome of a single attempt (its start followed
by its own completion) never leaves both the value cell and the error
cell populated: the start clears the error, a success leaves the error
clear, and a failure clears the value. -/
theorem c4_state_invariant {T : Type} (s : AxiosHookState T) :
    ExactlyOne s ∧
    ∀ o : Except String T,
      ¬((fetchDataComplete (fetchDataStart s) o).data.isSome = true ∧
        (fetchDataComplete (fetchDataStart s) o).error.isSome = true) := by
  constructor
  · rcases s with ⟨d, l, e⟩
    cases l <;> cases e <;> cases d <;>
      simp [ExactlyOne, AxiosHookState.status]
  · intro o
    cases o <;>
      simp [fetchDataComplete, fetchDataStart, fetchDataOnSuccess, fetchDataOnError,
        fetchDataFinally]

/-- Claim C5: from any prior state, a start followed by a successful
completion delivering payload p leaves exactly value = p, loading
cleared, error absent, with derived status Succeeded. -/
theorem c5_success_roundtrip {T : Type} (s : AxiosHookState T) (p : T) (i : Nat) :
    hookRunFrom s [HookEvent.start, HookEvent.complete i (Except.ok p)] =
      ⟨some p, false, none⟩ ∧
    (⟨some p, false, none⟩ : AxiosHookState T).status = Status.Succeeded :=
  ⟨rfl, rfl⟩

/-- Claim C6: after disposal (the unmount of the owning component), the
delivery of any outstanding attempt's completion changes nothing: the
framework discards state updates for an unmounted instance, so the
delivery is a no-op. -/
theorem c6_dispose_ignores_completion {T : Type} (hk : MountedHook T) (i : Nat)
    (o : Except String T) :
    mountedStep (dispose hk) (HookEvent.complete i o) = dispose hk := by
  simp [mountedStep, dispose]

/-- Claim C7: from every prior state, invoking fetchData (start or
retrigger) sets the loading flag, clears any prior error, and the
derived status observed immediately afterwards is Loading with error
absent. -/
theorem c7_start_sets_loading_clears_error {T : Type} (s : AxiosHookState T) :
    (fetchDataStart s).status = Status.Loading ∧
    (fetchDataStart s).error = none ∧
    (fetchDataStart s).isLoading = true :=
  ⟨rfl, rfl, rfl⟩

/-- Claim C8: a failed completion sets the derived status to Failed,
and from every Failed state a retrigger (a fresh start followed by a
successful completion) is permitted and yields a Succeeded state with
the new payload — no error is fatal to the instance. -/
theorem c8_errors_not_fatal {T : Type} (s : AxiosHookState T) (m : String) :
    (fetchDataComplete s (Except.error m)).status = Status.Failed ∧
    ∀ s2 : AxiosHookState T, s2.status = Status.Failed →
      ∀ p : T, ∀ i : Nat,
        hookRunFrom s2 [HookEvent.start, HookEvent.complete i (Except.ok p)] =
          ⟨some p, false, none⟩ ∧
        (hookRunFrom s2
            [HookEvent.start, HookEvent.complete i (Except.ok p)]).status =
          Status.Succeeded :=
  ⟨rfl, fun _ _ _ _ => ⟨rfl, rfl⟩⟩

/-- Witness for claim C8 at a concrete Failed state: the failure keeps
status Failed and a subsequent retrigger succeeds with payload 9. -/
theorem c8_witness :
    (fetchDataComplete (⟨none, false, some "alt"⟩ : AxiosHookState Nat)
        (Except.error "boom")).status = Status.Failed ∧
    hookRunFrom (⟨none, false, some "boom"⟩ : AxiosHookState Nat)
        [HookEvent.start, HookEvent.complete 0 (Except.ok 9)] =
      ⟨some 9, false, none⟩ :=
  ⟨(c8_errors_not_fatal (⟨none, false, some "alt"⟩ : AxiosHookState Nat) "boom").1,
    ((c8_errors_not_fatal (⟨none, false, some "alt"⟩ : AxiosHookState Nat) "boom").2
        ⟨none, false, some "boom"⟩ (by decide) 9 0).1⟩

/-- Claim C10: every completion of a fetch attempt, successful or
failed, runs the finally block and therefore leaves the loading flag
false. -/
theorem c10_completion_clears_loading {T : Type} (s : AxiosHookState T)
    (o : Except String T) :
    (fetchDataComplete s o).isLoading = false := by
  cases o <;> rfl

end ReactBackend

namespace ContextRedux

/-- Claim C9: useTheme throws the configuration error exactly when the
context is undefined, which is the case outside every ThemeProvider (the
context default is undefined); under a provider it returns the provided
value unchanged, hence a valid theme value. -/
theorem c9_theme_guard :
    useTheme none =
      Except.error "useTheme muss innerhalb von ThemeProvider verwendet werden." ∧
    (∀ t : Theme, useTheme (providerValue t) = Except.ok ⟨t⟩) ∧
    (∀ ctx : Option ThemeContextValue,
      (∃ msg, useTheme ctx = Except.error msg) ↔ ctx = none) := by
  refine ⟨rfl, fun t => rfl, fun ctx => ?_⟩
  cases ctx with
  | none =>
      exact ⟨fun _ => rfl,
        fun _ => ⟨"useTheme muss innerhalb von ThemeProvider verwendet werden.", rfl⟩⟩
  | some v =>
      simp [useTheme]

end ContextRedux
